import Mathlib

/-!
Verification development for the ClaudeBar repository (Go).

The file shallowly embeds the parts of the source that the checked
properties are about:

* `internal/app/app.go`: `highestCrossedThreshold`, `checkAndNotify`,
  the error branch of the polling loop's `fetchUsage` (consecutive-error
  counter and rate-limit backoff).
* `internal/api/client.go`: `FetchUsage` / `FetchOrganizations` with
  their one-retry loops, `fetchUsageOnce` / `fetchOrganizationsOnce`
  response classification, `parseAPIError`, `ToUsageData`, `parseTime`,
  and the client's last-usage cache.
* `internal/api/auth.go`: `verifyAndFetchOrg` and `SetManualSessionKey`.

Go `float64` values (utilizations, thresholds) are modelled as `Rat`:
the source only copies and compares them, and comparison of finite
floats agrees with the rational order.  HTTP traffic is modelled by an
oracle `Nat → Attempt` giving the outcome of each successive request,
and a response body is modelled by the results of the `json.Unmarshal`
calls the source applies to it.  Sleeps are modelled by accounting the
slept seconds in the result.
-/

namespace ClaudeBar

/-! ### app.go: highestCrossedThreshold -/

/-- One iteration of the `for _, t := range thresholds` loop body in
`highestCrossedThreshold` (app.go lines 338-346):
`if utilization >= t && t > highest { highest = t }`. -/
def hctStep (u highest t : Rat) : Rat :=
  if u ≥ t ∧ t > highest then t else highest

/-- Embedding of `highestCrossedThreshold` (app.go lines 338-346): running
maximum, starting from `0`, of the thresholds that utilization meets. -/
def highestCrossedThreshold (u : Rat) (thresholds : List Rat) : Rat :=
  thresholds.foldl (hctStep u) 0

/-- The loop of `highestCrossedThreshold` with an arbitrary starting
accumulator, for induction. -/
def hctFold (u acc : Rat) (ts : List Rat) : Rat :=
  ts.foldl (hctStep u) acc

/-! ### client.go: timestamps and parseTime -/

/-- A parsed wall-clock timestamp.  Go's `time.Time` zero value (what
`parseTime` returns on failure) is modelled as `Option.none` at use
sites, so `DateTime` itself only represents successfully parsed times. -/
structure DateTime where
  year : Nat
  month : Nat
  day : Nat
  hour : Nat
  minute : Nat
  second : Nat
  nanos : Nat
  offsetMinutes : Int
  deriving DecidableEq, Repr

def digitVal (c : Char) : Option Nat :=
  if '0' ≤ c ∧ c ≤ '9' then some (c.toNat - 48) else none

/-- Parse exactly `n` decimal digits into a number (most significant first). -/
def parseNDigits : Nat → Nat → List Char → Option (Nat × List Char)
  | 0, acc, cs => some (acc, cs)
  | _ + 1, _, [] => none
  | n + 1, acc, c :: rest =>
    match digitVal c with
    | none => none
    | some d => parseNDigits n (acc * 10 + d) rest

def expectChar (c : Char) : List Char → Option (List Char)
  | [] => none
  | x :: rest => if x = c then some rest else none

def takeDigits : List Char → List Nat × List Char
  | [] => ([], [])
  | c :: rest =>
    match digitVal c with
    | none => ([], c :: rest)
    | some d =>
      let p := takeDigits rest
      (d :: p.1, p.2)

/-- Scale a fractional-second digit string to nanoseconds (first nine
digits, right-padded with zeros), as Go's time parser does. -/
def fracNanos (ds : List Nat) : Nat :=
  ((ds.take 9) ++ List.replicate (9 - ds.length) 0).foldl
    (fun a d => a * 10 + d) 0

/-- Parse an optional fractional-second field `.ddd…` after the seconds. -/
def parseFrac (cs : List Char) : Nat × List Char :=
  match cs with
  | '.' :: rest =>
    let p := takeDigits rest
    match p.1 with
    | [] => (0, cs)
    | ds => (fracNanos ds, p.2)
  | _ => (0, cs)

def parseOffsetHM (sign : Int) (cs : List Char) : Option (Int × List Char) :=
  match parseNDigits 2 0 cs with
  | none => none
  | some (hh, cs1) =>
    match expectChar ':' cs1 with
    | none => none
    | some cs2 =>
      match parseNDigits 2 0 cs2 with
      | none => none
      | some (mm, cs3) => some (sign * (hh * 60 + mm), cs3)

/-- Parse the timezone suffix: `Z`, or `±hh:mm`. -/
def parseOffset (cs : List Char) : Option (Int × List Char) :=
  match cs with
  | 'Z' :: rest => some ((0 : Int), rest)
  | '+' :: rest => parseOffsetHM 1 rest
  | '-' :: rest => parseOffsetHM (-1) rest
  | _ => none

def isLeapYear (y : Nat) : Bool :=
  y % 4 == 0 && (y % 100 != 0 || y % 400 == 0)

def daysInMonth (y m : Nat) : Nat :=
  if m = 2 then (if isLeapYear y then 29 else 28)
  else if m = 4 ∨ m = 6 ∨ m = 9 ∨ m = 11 then 30
  else 31

/-- Parse an ISO-8601 / RFC3339 timestamp
`YYYY-MM-DDTHH:MM:SS[.fff…](Z|±hh:mm)` from a character list.  This is
the union of the four layouts `parseTime` (client.go lines 453-473)
tries: `time.RFC3339`, `time.RFC3339Nano`,
`"2006-01-02T15:04:05.000Z"`, and `"2006-01-02T15:04:05Z"`. -/
def parseRFC3339 (cs0 : List Char) : Option DateTime := do
  let (year, cs1) ← parseNDigits 4 0 cs0
  let cs2 ← expectChar '-' cs1
  let (month, cs3) ← parseNDigits 2 0 cs2
  let cs4 ← expectChar '-' cs3
  let (day, cs5) ← parseNDigits 2 0 cs4
  let cs6 ← expectChar 'T' cs5
  let (hour, cs7) ← parseNDigits 2 0 cs6
  let cs8 ← expectChar ':' cs7
  let (minute, cs9) ← parseNDigits 2 0 cs8
  let cs10 ← expectChar ':' cs9
  let (second, cs11) ← parseNDigits 2 0 cs10
  let fr := parseFrac cs11
  let (offset, cs12) ← parseOffset fr.2
  if cs12 = [] ∧ 1 ≤ month ∧ month ≤ 12 ∧ 1 ≤ day ∧
      day ≤ daysInMonth year month ∧ hour ≤ 23 ∧ minute ≤ 59 ∧
      second ≤ 59 then
    some ⟨year, month, day, hour, minute, second, fr.1, offset⟩
  else
    none

/-- Embedding of `parseTime` (client.go lines 453-473): empty string and
any string matching none of the accepted layouts map to the zero time
value, modelled as `none`; otherwise the parsed timestamp. -/
def parseTime (s : String) : Option DateTime :=
  if s = "" then none else parseRFC3339 s.toList

/-! ### client.go: usage data model and ToUsageData -/

/-- `UsageStat` (client.go lines 352-356). -/
structure UsageStat where
  utilization : Rat
  resetsAt : Option DateTime
  label : String
  deriving DecidableEq, Repr

/-- The Go zero value of `UsageStat`. -/
def zeroUsageStat : UsageStat := ⟨0, none, ""⟩

/-- `UsageData` (client.go lines 343-349).  `lastUpdated` carries the
`time.Now()` instant, modelled as an abstract clock reading. -/
structure UsageData where
  fiveHour : UsageStat
  sevenDay : UsageStat
  sevenDayOpus : UsageStat
  sevenDaySonnet : UsageStat
  lastUpdated : Nat
  deriving DecidableEq, Repr

/-- `UsageMetric` (client.go lines 406-409). -/
structure UsageMetric where
  utilization : Rat
  resetsAt : String
  deriving DecidableEq, Repr

/-- `UsageAPIResponse` (client.go lines 398-403): four optional metrics. -/
structure UsageAPIResponse where
  fiveHour : Option UsageMetric
  sevenDay : Option UsageMetric
  sevenDayOpus : Option UsageMetric
  sevenDaySonnet : Option UsageMetric
  deriving DecidableEq, Repr

/-- Embedding of `ToUsageData` (client.go lines 412-450): start from a
zero-valued snapshot stamped with the current time, then fill each of
the four stats from the corresponding metric when present. -/
def UsageAPIResponse.ToUsageData (r : UsageAPIResponse) (now : Nat) : UsageData :=
  let data : UsageData :=
    ⟨zeroUsageStat, zeroUsageStat, zeroUsageStat, zeroUsageStat, now⟩
  let data :=
    match r.fiveHour with
    | none => data
    | some m => { data with fiveHour := ⟨m.utilization, parseTime m.resetsAt, "5-Hour"⟩ }
  let data :=
    match r.sevenDay with
    | none => data
    | some m => { data with sevenDay := ⟨m.utilization, parseTime m.resetsAt, "Weekly"⟩ }
  let data :=
    match r.sevenDayOpus with
    | none => data
    | some m => { data with sevenDayOpus := ⟨m.utilization, parseTime m.resetsAt, "Opus"⟩ }
  let data :=
    match r.sevenDaySonnet with
    | none => data
    | some m => { data with sevenDaySonnet := ⟨m.utilization, parseTime m.resetsAt, "Sonnet"⟩ }
  data

/-! ### client.go: error taxonomy, HTTP model, fetch paths -/

/-- The client's error taxonomy (client.go lines 23-30 plus the
`fmt.Errorf` cases and transport errors; `noOrganizations` is
`errors.New("no organizations found")` from auth.go line 135). -/
inductive ClientError where
  | noSessionKey
  | noOrgID
  | unauthorized
  | sessionExpired
  | rateLimited
  | apiUnavailable
  | unexpectedStatus (code : Nat)
  | parseFailed
  | networkError (msg : String)
  | noOrganizations
  deriving DecidableEq, Repr

/-- `OrganizationInfo` (client.go lines 391-394). -/
structure OrganizationInfo where
  id : String
  name : String
  deriving DecidableEq, Repr

/-- `details` of the structured API error body (client.go lines 38-40). -/
structure APIErrorDetails where
  error_code : String
  deriving DecidableEq, Repr

/-- Inner `error` object of the structured API error body
(client.go lines 35-41). -/
structure APIErrorInner where
  typ : String
  message : String
  details : APIErrorDetails
  deriving DecidableEq, Repr

/-- `APIError` (client.go lines 33-42): structured error body shape. -/
structure APIError where
  typ : String
  err : APIErrorInner
  deriving DecidableEq, Repr

/-- A response body, modelled by the outcomes of the `json.Unmarshal`
calls the source applies to it: as a structured `APIError`, as a
`UsageAPIResponse`, and as an organization list (`none` = unmarshal
fails for that shape). -/
structure Body where
  asAPIError : Option APIError
  asUsage : Option UsageAPIResponse
  asOrgs : Option (List OrganizationInfo)
  deriving DecidableEq, Repr

/-- Outcome of one HTTP attempt: a transport-level failure
(`httpClient.Do` or `io.ReadAll` error) or a status code with a body. -/
inductive Attempt where
  | transportError (msg : String)
  | response (status : Nat) (body : Body)
  deriving DecidableEq, Repr

/-- Embedding of `parseAPIError` (client.go lines 283-289): the
`error_code` of the parsed body, or `""` when the body does not parse. -/
def parseAPIError (body : Body) : String :=
  match body.asAPIError with
  | none => ""
  | some e => e.err.details.error_code

/-- The client's cache fields `lastUsage` and `lastFetch`
(client.go lines 51-52). -/
structure ClientCache where
  lastUsage : Option UsageData
  lastFetch : Option Nat
  deriving DecidableEq, Repr

instance exceptDecEq {ε α : Type} [DecidableEq ε] [DecidableEq α] :
    DecidableEq (Except ε α) := fun x y =>
  match x, y with
  | .ok a, .ok b =>
    if h : a = b then isTrue (by rw [h])
    else isFalse (fun he => by cases he; exact h rfl)
  | .error a, .error b =>
    if h : a = b then isTrue (by rw [h])
    else isFalse (fun he => by cases he; exact h rfl)
  | .ok _, .error _ => isFalse (fun he => by cases he)
  | .error _, .ok _ => isFalse (fun he => by cases he)

/-- Embedding of `fetchUsageOnce` (client.go lines 221-279): classify
one attempt's outcome and, only on the fully successful path, write the
cache.  The session key and organization ID only feed the request
headers and URL, which the HTTP model abstracts into the oracle. -/
def fetchUsageOnce (_sessionKey _orgID : String) (now : Nat) (att : Attempt)
    (cache : ClientCache) : Except ClientError UsageData × ClientCache :=
  match att with
  | .transportError msg => (.error (.networkError msg), cache)
  | .response status body =>
    if status = 401 ∨ status = 403 then
      if parseAPIError body = "account_session_invalid" then
        (.error .sessionExpired, cache)
      else
        (.error .unauthorized, cache)
    else if status = 429 then
      (.error .rateLimited, cache)
    else if 500 ≤ status then
      (.error .apiUnavailable, cache)
    else if status ≠ 200 then
      (.error (.unexpectedStatus status), cache)
    else
      match body.asUsage with
      | none => (.error .parseFailed, cache)
      | some apiResponse =>
        let usage := apiResponse.ToUsageData now
        (.ok usage, ⟨some usage, some now⟩)

/-- Result of a `FetchUsage` call: the returned value or error, the
number of HTTP requests issued, the seconds slept inside the client's
retry loop, and the cache afterwards. -/
structure FetchResult where
  result : Except ClientError UsageData
  requests : Nat
  sleepSecs : Nat
  cache : ClientCache
  deriving DecidableEq, Repr

/-- Embedding of `FetchUsage` (client.go lines 184-219): credential
guards, then a two-attempt loop (`for attempt := 0; attempt < 2`) that
sleeps 2 seconds before the second attempt and short-circuits on
`ErrUnauthorized` / `ErrSessionExpired`; after the loop the last error
is returned.  The outcome of the `attempt`-th request is `oracle
attempt`. -/
def FetchUsage (sessionKey orgID : String) (now : Nat)
    (oracle : Nat → Attempt) (cache : ClientCache) : FetchResult :=
  if sessionKey = "" then
    ⟨.error .noSessionKey, 0, 0, cache⟩
  else if orgID = "" then
    ⟨.error .noOrgID, 0, 0, cache⟩
  else
    let r0 := fetchUsageOnce sessionKey orgID now (oracle 0) cache
    match r0.1 with
    | .ok usage => ⟨.ok usage, 1, 0, r0.2⟩
    | .error e0 =>
      if e0 = .unauthorized ∨ e0 = .sessionExpired then
        ⟨.error e0, 1, 0, r0.2⟩
      else
        let r1 := fetchUsageOnce sessionKey orgID now (oracle 1) r0.2
        match r1.1 with
        | .ok usage => ⟨.ok usage, 2, 2, r1.2⟩
        | .error e1 => ⟨.error e1, 2, 2, r1.2⟩

/-- Embedding of `fetchOrganizationsOnce` (client.go lines 142-180). -/
def fetchOrganizationsOnce (_sessionKey : String) (att : Attempt) :
    Except ClientError (List OrganizationInfo) :=
  match att with
  | .transportError msg => .error (.networkError msg)
  | .response status body =>
    if status = 401 ∨ status = 403 then
      if parseAPIError body = "account_session_invalid" then
        .error .sessionExpired
      else
        .error .unauthorized
    else if status ≠ 200 then
      .error (.unexpectedStatus status)
    else
      match body.asOrgs with
      | none => .error .parseFailed
      | some orgs => .ok orgs

/-- Result of a `FetchOrganizations` call. -/
structure OrgFetchResult where
  result : Except ClientError (List OrganizationInfo)
  requests : Nat
  sleepSecs : Nat
  deriving DecidableEq, Repr

/-- Embedding of `FetchOrganizations` (client.go lines 111-140): session
guard, then the same two-attempt loop with a 2-second sleep before the
retry and the auth-error short-circuit. -/
def FetchOrganizations (sessionKey : String) (oracle : Nat → Attempt) :
    OrgFetchResult :=
  if sessionKey = "" then
    ⟨.error .noSessionKey, 0, 0⟩
  else
    match fetchOrganizationsOnce sessionKey (oracle 0) with
    | .ok orgs => ⟨.ok orgs, 1, 0⟩
    | .error e0 =>
      if e0 = .unauthorized ∨ e0 = .sessionExpired then
        ⟨.error e0, 1, 0⟩
      else
        match fetchOrganizationsOnce sessionKey (oracle 1) with
        | .ok orgs => ⟨.ok orgs, 2, 2⟩
        | .error e1 => ⟨.error e1, 2, 2⟩

/-! ### app.go: polling-loop error state and notifications -/

/-- The polling loop's mutable state (app.go lines 39-42):
consecutive-error counter, pending rate-limit backoff (in seconds), and
the last-crossed notification thresholds for the two tracked metrics. -/
structure PollState where
  consecutiveErrors : Nat
  rateLimitBackoff : Nat
  lastSessionThreshold : Rat
  lastWeeklyThreshold : Rat
  deriving DecidableEq, Repr

/-- Embedding of the error branch of the polling loop's `fetchUsage`
(app.go lines 215-273): increment the consecutive-error counter, then
switch on the error class; only `ErrRateLimited` stores a backoff of
`30 * (1 << min(errCount-1, 3))` seconds.  The browser-refresh and
status-string side effects touch no `PollState` field. -/
def fetchUsageOnError (st : PollState) (e : ClientError) : PollState :=
  let st1 := { st with consecutiveErrors := st.consecutiveErrors + 1 }
  let errCount := st1.consecutiveErrors
  if e = .sessionExpired then st1
  else if e = .unauthorized then st1
  else if e = .rateLimited then
    { st1 with rateLimitBackoff := 30 * (1 <<< min (errCount - 1) 3) }
  else if e = .apiUnavailable then st1
  else st1

/-- Embedding of the success branch of the polling loop's `fetchUsage`
(app.go lines 276-279): reset the error counter and pending backoff. -/
def fetchUsageOnSuccess (st : PollState) : PollState :=
  { st with consecutiveErrors := 0, rateLimitBackoff := 0 }

/-- `n` consecutive ticks each failing with `ErrRateLimited`. -/
def rlTicks : Nat → PollState → PollState
  | 0, st => st
  | n + 1, st => fetchUsageOnError (rlTicks n st) .rateLimited

/-- The notification-relevant configuration fields (config consumed by
`checkAndNotify`, app.go line 299). -/
structure NotifyConfig where
  notificationsEnabled : Bool
  alertThresholds : List Rat
  deriving DecidableEq, Repr

/-- Outcome of one `checkAndNotify` run: the updated state and whether a
session / weekly notification was sent on this tick. -/
structure NotifyOut where
  st : PollState
  sessionFired : Bool
  weeklyFired : Bool
  deriving DecidableEq, Repr

/-- Embedding of `checkAndNotify` (app.go lines 298-334): gate on
notifications being enabled with a non-empty threshold list, then, per
metric: fire and raise the record when the highest crossed threshold
strictly exceeds it, lower the record silently when strictly below. -/
def checkAndNotify (cfg : NotifyConfig) (st : PollState) (u5 u7 : Rat) :
    NotifyOut :=
  if cfg.notificationsEnabled = false ∨ cfg.alertThresholds = [] then
    ⟨st, false, false⟩
  else
    let sessionCrossed := highestCrossedThreshold u5 cfg.alertThresholds
    let p1 : PollState × Bool :=
      if sessionCrossed > st.lastSessionThreshold then
        ({ st with lastSessionThreshold := sessionCrossed }, true)
      else if sessionCrossed < st.lastSessionThreshold then
        ({ st with lastSessionThreshold := sessionCrossed }, false)
      else
        (st, false)
    let st1 := p1.1
    let weeklyCrossed := highestCrossedThreshold u7 cfg.alertThresholds
    let p2 : PollState × Bool :=
      if weeklyCrossed > st1.lastWeeklyThreshold then
        ({ st1 with lastWeeklyThreshold := weeklyCrossed }, true)
      else if weeklyCrossed < st1.lastWeeklyThreshold then
        ({ st1 with lastWeeklyThreshold := weeklyCrossed }, false)
      else
        (st1, false)
    ⟨p2.1, p1.2, p2.2⟩

/-! ### auth.go: verifyAndFetchOrg and SetManualSessionKey -/

/-- The credential fields of the API client (client.go lines 48-49). -/
structure ClientCred where
  sessionKey : String
  organizationID : String
  deriving DecidableEq, Repr

/-- The Credential Store's persisted fields (config consumed by
auth.go). -/
structure ConfigState where
  sessionKey : String
  organizationID : String
  deriving DecidableEq, Repr

/-- The state the auth manager acts on: the client's in-memory
credential and the persisted config. -/
structure AMState where
  client : ClientCred
  config : ConfigState
  deriving DecidableEq, Repr

/-- Embedding of `verifyAndFetchOrg` (auth.go lines 128-148): call
`FetchOrganizations` with the client's current session key; propagate
its error; fail with `noOrganizations` on an empty list; otherwise
install and persist the first organization's ID. -/
def verifyAndFetchOrg (st : AMState) (oracle : Nat → Attempt) :
    Except ClientError Unit × AMState :=
  match (FetchOrganizations st.client.sessionKey oracle).result with
  | .error e => (.error e, st)
  | .ok orgs =>
    match orgs with
    | [] => (.error .noOrganizations, st)
    | org :: _ =>
      (.ok (),
        { st with
          client := { st.client with organizationID := org.id },
          config := { st.config with organizationID := org.id } })

/-- Embedding of `SetManualSessionKey` (auth.go lines 151-164): install
the key, run `verifyAndFetchOrg`; on failure reset the client's session
key to `""` and return the error; on success persist the key. -/
def SetManualSessionKey (key : String) (st : AMState)
    (oracle : Nat → Attempt) : Except ClientError Unit × AMState :=
  match verifyAndFetchOrg
      { st with client := { st.client with sessionKey := key } } oracle with
  | (.error e, st2) =>
    (.error e, { st2 with client := { st2.client with sessionKey := "" } })
  | (.ok _, st2) =>
    (.ok (), { st2 with config := { st2.config with sessionKey := key } })

/-! ## Theorems -/

/-! ### C4: highestCrossedThreshold -/

theorem highestCrossedThreshold_eq_hctFold (u : Rat) (ts : List Rat) :
    highestCrossedThreshold u ts = hctFold u 0 ts := rfl

theorem hctStep_le (u acc t : Rat) : acc ≤ hctStep u acc t := by
  unfold hctStep
  split
  · exact le_of_lt (by assumption : u ≥ t ∧ t > acc).2
  · exact le_refl acc

theorem hctFold_le (u : Rat) (ts : List Rat) :
    ∀ acc : Rat, acc ≤ hctFold u acc ts := by
  induction ts with
  | nil => intro acc; exact le_refl acc
  | cons x r ih =>
    intro acc
    exact le_trans (hctStep_le u acc x) (ih (hctStep u acc x))

theorem hctFold_cases (u : Rat) (ts : List Rat) :
    ∀ acc : Rat, hctFold u acc ts = acc ∨
      (hctFold u acc ts ∈ ts ∧ hctFold u acc ts ≤ u) := by
  induction ts with
  | nil => intro acc; exact Or.inl rfl
  | cons x r ih =>
    intro acc
    have hstep : hctFold u acc (x :: r) = hctFold u (hctStep u acc x) r := rfl
    rw [hstep]
    rcases ih (hctStep u acc x) with h | h
    · rw [h]
      unfold hctStep
      split
      · rename_i hc
        exact Or.inr ⟨List.mem_cons_self x r, hc.1⟩
      · exact Or.inl rfl
    · exact Or.inr ⟨List.mem_cons_of_mem x h.1, h.2⟩

theorem hctFold_ub (u : Rat) (ts : List Rat) :
    ∀ acc t, t ∈ ts → t ≤ u → t ≤ hctFold u acc ts := by
  induction ts with
  | nil => intro acc t ht; exact absurd ht (List.not_mem_nil t)
  | cons x r ih =>
    intro acc t ht htu
    rcases List.mem_cons.mp ht with rfl | hmem
    · show t ≤ hctFold u (hctStep u acc t) r
      refine le_trans ?_ (hctFold_le u r (hctStep u acc t))
      unfold hctStep
      split
      · exact le_refl t
      · rename_i hc
        push_neg at hc
        exact le_of_not_lt (fun hlt => absurd (hc htu) (not_le.mpr hlt))
    · exact ih (hctStep u acc x) t hmem htu

theorem hctFold_none (u : Rat) (ts : List Rat) (h : ∀ t ∈ ts, ¬ t ≤ u) :
    ∀ acc, hctFold u acc ts = acc := by
  induction ts with
  | nil => intro acc; rfl
  | cons x r ih =>
    intro acc
    show hctFold u (hctStep u acc x) r = acc
    have hx : hctStep u acc x = acc := by
      unfold hctStep
      split
      · rename_i hc
        exact absurd hc.1 (h x (List.mem_cons_self x r))
      · rfl
    rw [hx]
    exact ih (fun t ht => h t (List.mem_cons_of_mem x ht)) acc

/-- C4 (counterexample): with thresholds `[-5]` and utilization `0`, the
element `-5` belongs to the set and satisfies `-5 ≤ 0`, so the claim's
"maximum t in T with t ≤ u" is `-5`; yet `highestCrossedThreshold`
returns `0`, because its running maximum starts at `0`. -/
theorem highestCrossedThreshold_neg_counterexample :
    ((-5 : Rat) ∈ [(-5 : Rat)] ∧ (-5 : Rat) ≤ 0) ∧
      highestCrossedThreshold 0 [(-5 : Rat)] = 0 ∧
      highestCrossedThreshold 0 [(-5 : Rat)] ≠ (-5 : Rat) := by
  refine ⟨⟨List.mem_singleton.mpr rfl, by norm_num⟩, ?_, ?_⟩
  · show hctStep 0 0 (-5) = 0
    unfold hctStep
    rw [if_neg]
    intro hc
    exact absurd hc.2 (by norm_num)
  · show hctStep 0 0 (-5) ≠ (-5 : Rat)
    unfold hctStep
    rw [if_neg]
    · norm_num
    · intro hc
      exact absurd hc.2 (by norm_num)

/-- C4 (amended): for non-negative thresholds, `highestCrossedThreshold u T`
is the maximum `t ∈ T` with `t ≤ u` (membership, boundedness by `u`, and
upper-bound property), and is `0` when no element of `T` is `≤ u`. -/
theorem highestCrossedThreshold_spec (u : Rat) (ts : List Rat)
    (hnn : ∀ t ∈ ts, 0 ≤ t) :
    ((∃ t ∈ ts, t ≤ u) →
      highestCrossedThreshold u ts ∈ ts ∧ highestCrossedThreshold u ts ≤ u ∧
        ∀ t ∈ ts, t ≤ u → t ≤ highestCrossedThreshold u ts) ∧
    ((∀ t ∈ ts, ¬ t ≤ u) → highestCrossedThreshold u ts = 0) := by
  constructor
  · rintro ⟨t0, ht0, ht0u⟩
    rw [highestCrossedThreshold_eq_hctFold]
    have hub := hctFold_ub u ts 0
    rcases hctFold_cases u ts 0 with h | h
    · have ht0le : t0 ≤ hctFold u 0 ts := hub t0 ht0 ht0u
      rw [h] at ht0le
      have ht00 : t0 = 0 := le_antisymm ht0le (hnn t0 ht0)
      rw [h]
      refine ⟨?_, ?_, ?_⟩
      · rw [← ht00]; exact ht0
      · rw [← ht00]; exact ht0u
      · intro t ht htu
        have := hub t ht htu
        rwa [h] at this
    · exact ⟨h.1, h.2, fun t ht htu => hub t ht htu⟩
  · intro h
    rw [highestCrossedThreshold_eq_hctFold]
    exact hctFold_none u ts h 0

/-- C4 witness: the amended theorem applied to thresholds `[50, 75, 90]`
and utilization `80`, recovering the spec's worked example (result 75). -/
theorem highestCrossedThreshold_spec_witness :
    highestCrossedThreshold 80 [(50 : Rat), 75, 90] ∈ [(50 : Rat), 75, 90] ∧
      highestCrossedThreshold 80 [(50 : Rat), 75, 90] ≤ 80 ∧
      ∀ t ∈ [(50 : Rat), 75, 90], t ≤ 80 →
        t ≤ highestCrossedThreshold 80 [(50 : Rat), 75, 90] :=
  (highestCrossedThreshold_spec 80 [(50 : Rat), 75, 90]
    (by intro t ht; fin_cases ht <;> norm_num)).1
    ⟨50, by norm_num, by norm_num⟩

/-! ### client.go: timestamps and parseTime -/

/-! ### Client fetch-path helper lemmas -/

theorem fetchUsageOnce_error_cache (k o : String) (now : Nat) (att : Attempt)
    (cache : ClientCache) (e : ClientError)
    (h : (fetchUsageOnce k o now att cache).1 = .error e) :
    (fetchUsageOnce k o now att cache).2 = cache := by
  cases att with
  | transportError msg => rfl
  | response status body =>
    unfold fetchUsageOnce at h ⊢
    dsimp only at h ⊢
    split_ifs at h ⊢ <;> try rfl
    cases hb : body.asUsage with
    | none => simp [hb]
    | some r =>
      rw [hb] at h
      simp at h

theorem fetchUsageOnce_ok_cache (k o : String) (now : Nat) (att : Attempt)
    (cache : ClientCache) (u : UsageData)
    (h : (fetchUsageOnce k o now att cache).1 = .ok u) :
    (fetchUsageOnce k o now att cache).2 = ⟨some u, some now⟩ := by
  cases att with
  | transportError msg => simp [fetchUsageOnce] at h
  | response status body =>
    unfold fetchUsageOnce at h ⊢
    dsimp only at h ⊢
    split_ifs at h ⊢
    cases hb : body.asUsage with
    | none =>
      rw [hb] at h
      exact Except.noConfusion h
    | some r =>
      rw [hb] at h
      have h2 : r.ToUsageData now = u := by injection h
      show (⟨some (r.ToUsageData now), some now⟩ : ClientCache) = ⟨some u, some now⟩
      rw [h2]

/-- Classification of a 429 or 5xx response by `fetchUsageOnce`. -/
theorem fetchUsageOnce_transient_status (k o : String) (now : Nat) (s : Nat)
    (body : Body) (cache : ClientCache) (hs : s = 429 ∨ 500 ≤ s) :
    fetchUsageOnce k o now (.response s body) cache =
      (.error (if s = 429 then ClientError.rateLimited else ClientError.apiUnavailable),
        cache) := by
  rcases hs with hs | hs
  · subst hs
    simp only [if_pos rfl]
    rfl
  · unfold fetchUsageOnce
    dsimp only
    rw [if_neg (by omega : ¬(s = 401 ∨ s = 403)), if_neg (by omega : ¬ s = 429),
      if_pos hs, if_neg (by omega : ¬ s = 429)]

/-- `FetchUsage` when the first attempt fails with an auth error: one
request, no sleep, the error surfaced. -/
theorem fetchUsage_auth_shape (k o : String) (now : Nat) (oracle : Nat → Attempt)
    (cache : ClientCache) (e0 : ClientError) (hk : k ≠ "") (ho : o ≠ "")
    (h0 : (fetchUsageOnce k o now (oracle 0) cache).1 = .error e0)
    (he : e0 = .unauthorized ∨ e0 = .sessionExpired) :
    FetchUsage k o now oracle cache = ⟨.error e0, 1, 0, cache⟩ := by
  have hc0 := fetchUsageOnce_error_cache k o now (oracle 0) cache e0 h0
  unfold FetchUsage
  rw [if_neg hk, if_neg ho]
  simp only [h0]
  rw [if_pos he, hc0]

/-- `FetchUsage` when the first attempt succeeds: one request, no sleep. -/
theorem fetchUsage_ok_shape (k o : String) (now : Nat) (oracle : Nat → Attempt)
    (cache : ClientCache) (u : UsageData) (hk : k ≠ "") (ho : o ≠ "")
    (h0 : (fetchUsageOnce k o now (oracle 0) cache).1 = .ok u) :
    FetchUsage k o now oracle cache =
      ⟨.ok u, 1, 0, (fetchUsageOnce k o now (oracle 0) cache).2⟩ := by
  unfold FetchUsage
  rw [if_neg hk, if_neg ho]
  simp only [h0]

/-- `FetchUsage` when the first attempt fails with a non-auth error: two
requests, one 2-second sleep, and the second attempt decides everything. -/
theorem fetchUsage_retry_shape (k o : String) (now : Nat) (oracle : Nat → Attempt)
    (cache : ClientCache) (e0 : ClientError) (hk : k ≠ "") (ho : o ≠ "")
    (h0 : (fetchUsageOnce k o now (oracle 0) cache).1 = .error e0)
    (hne : ¬(e0 = ClientError.unauthorized ∨ e0 = ClientError.sessionExpired)) :
    FetchUsage k o now oracle cache =
      ⟨(fetchUsageOnce k o now (oracle 1) cache).1, 2, 2,
        (fetchUsageOnce k o now (oracle 1) cache).2⟩ := by
  have hc0 := fetchUsageOnce_error_cache k o now (oracle 0) cache e0 h0
  unfold FetchUsage
  rw [if_neg hk, if_neg ho]
  simp only [h0]
  rw [if_neg hne, hc0]
  cases h1 : (fetchUsageOnce k o now (oracle 1) cache).1 with
  | ok u => simp [h1]
  | error e1 => simp [h1]

/-- `FetchOrganizations` when the first attempt fails with an auth error. -/
theorem fetchOrganizations_auth_shape (k : String) (oracle : Nat → Attempt)
    (e0 : ClientError) (hk : k ≠ "")
    (h0 : fetchOrganizationsOnce k (oracle 0) = .error e0)
    (he : e0 = .unauthorized ∨ e0 = .sessionExpired) :
    FetchOrganizations k oracle = ⟨.error e0, 1, 0⟩ := by
  unfold FetchOrganizations
  rw [if_neg hk]
  simp only [h0]
  rw [if_pos he]

/-- `FetchOrganizations` when the first attempt fails with a non-auth
error: the retry's outcome is returned after 2 requests and a 2-second
sleep. -/
theorem fetchOrganizations_retry_shape (k : String) (oracle : Nat → Attempt)
    (e0 : ClientError) (hk : k ≠ "")
    (h0 : fetchOrganizationsOnce k (oracle 0) = .error e0)
    (hne : ¬(e0 = ClientError.unauthorized ∨ e0 = ClientError.sessionExpired)) :
    FetchOrganizations k oracle = ⟨fetchOrganizationsOnce k (oracle 1), 2, 2⟩ := by
  unfold FetchOrganizations
  rw [if_neg hk]
  simp only [h0]
  rw [if_neg hne]
  cases h1 : fetchOrganizationsOnce k (oracle 1) with
  | ok orgs => simp [h1]
  | error e1 => simp [h1]

/-! ### C7: credential guards of FetchUsage -/

/-- C7: `FetchUsage` with an empty session key returns `NoSessionKey`
having issued zero HTTP requests; with a session key but an empty
organization ID it returns the distinct `NoOrganizationID` error, again
with zero requests issued. -/
theorem fetchUsage_credential_guards (k o : String) (now : Nat)
    (oracle : Nat → Attempt) (cache : ClientCache) :
    (k = "" → FetchUsage k o now oracle cache =
      ⟨.error .noSessionKey, 0, 0, cache⟩) ∧
    (k ≠ "" → o = "" → FetchUsage k o now oracle cache =
      ⟨.error .noOrgID, 0, 0, cache⟩) := by
  constructor
  · intro hk
    unfold FetchUsage
    rw [if_pos hk]
  · intro hk ho
    unfold FetchUsage
    rw [if_neg hk, if_pos ho]

/-- C7 witness: both guards evaluated at concrete clients. -/
theorem fetchUsage_credential_guards_witness :
    (FetchUsage "" "org" 0 (fun _ => .response 200 ⟨none, none, none⟩)
        ⟨none, none⟩ = ⟨.error .noSessionKey, 0, 0, ⟨none, none⟩⟩) ∧
    (FetchUsage "sk-ant-key" "" 0 (fun _ => .response 200 ⟨none, none, none⟩)
        ⟨none, none⟩ = ⟨.error .noOrgID, 0, 0, ⟨none, none⟩⟩) :=
  ⟨(fetchUsage_credential_guards "" "org" 0 _ _).1 rfl,
   (fetchUsage_credential_guards "sk-ant-key" "" 0 _ _).2 (by decide) rfl⟩

/-! ### C6: 401/403 body classification -/

/-- C6: on a 401 or 403 response, `fetchUsageOnce` returns
`SessionExpired` exactly when the body parses as the structured API
error shape with `error.details.error_code = "account_session_invalid"`;
with any other error code, or an unparseable body, it returns the
generic `Unauthorized`. -/
theorem auth_status_classification (k o : String) (now : Nat)
    (cache : ClientCache) (status : Nat) (body : Body)
    (hst : status = 401 ∨ status = 403) :
    ((∃ a, body.asAPIError = some a ∧
        a.err.details.error_code = "account_session_invalid") →
      (fetchUsageOnce k o now (.response status body) cache).1 =
        .error .sessionExpired) ∧
    ((∀ a, body.asAPIError = some a →
        a.err.details.error_code ≠ "account_session_invalid") →
      (fetchUsageOnce k o now (.response status body) cache).1 =
        .error .unauthorized) := by
  constructor
  · rintro ⟨a, ha, hc⟩
    unfold fetchUsageOnce
    dsimp only
    rw [if_pos hst]
    have hp : parseAPIError body = "account_session_invalid" := by
      unfold parseAPIError
      rw [ha]
      exact hc
    rw [if_pos hp]
  · intro hno
    unfold fetchUsageOnce
    dsimp only
    rw [if_pos hst]
    have hp : parseAPIError body ≠ "account_session_invalid" := by
      unfold parseAPIError
      cases hb : body.asAPIError with
      | none => decide
      | some a => exact hno a hb
    rw [if_neg hp]

/-- C6 witness: a 401 with the invalid-session error code yields
`SessionExpired`; a 403 with an unparseable body yields `Unauthorized`. -/
theorem auth_status_classification_witness :
    (fetchUsageOnce "k" "o" 0
        (.response 401
          ⟨some ⟨"error", ⟨"t", "m", ⟨"account_session_invalid"⟩⟩⟩, none, none⟩)
        ⟨none, none⟩).1 = .error .sessionExpired ∧
    (fetchUsageOnce "k" "o" 0 (.response 403 ⟨none, none, none⟩)
        ⟨none, none⟩).1 = .error .unauthorized :=
  ⟨(auth_status_classification "k" "o" 0 ⟨none, none⟩ 401
      ⟨some ⟨"error", ⟨"t", "m", ⟨"account_session_invalid"⟩⟩⟩, none, none⟩
      (Or.inl rfl)).1 ⟨_, rfl, rfl⟩,
   (auth_status_classification "k" "o" 0 ⟨none, none⟩ 403
      ⟨none, none, none⟩ (Or.inr rfl)).2
      (fun _a ha => Option.noConfusion ha)⟩

/-! ### C1: client behaviour on 429 / 5xx -/

/-- C1 (counterexample): with both attempts answering HTTP 429, a
`FetchUsage` call issues two HTTP requests and sleeps 2 seconds before
returning `RateLimited` — refuting the claim that exactly one request is
issued and no 2-second retry delay occurs for this error class. -/
theorem fetchUsage_429_single_request_counterexample :
    (FetchUsage "k" "o" 0 (fun _ => .response 429 ⟨none, none, none⟩)
        ⟨none, none⟩).requests = 2 ∧
    (FetchUsage "k" "o" 0 (fun _ => .response 429 ⟨none, none, none⟩)
        ⟨none, none⟩).sleepSecs = 2 ∧
    (FetchUsage "k" "o" 0 (fun _ => .response 429 ⟨none, none, none⟩)
        ⟨none, none⟩).result = .error .rateLimited :=
  ⟨rfl, rfl, rfl⟩

/-- C1 (amended): a first attempt answered with HTTP 429 (resp. ≥500)
is classified `RateLimited` (resp. `ServiceUnavailable`) but, like any
other non-auth failure, is retried exactly once after a 2-second sleep:
two requests are issued, the second attempt's outcome is returned, and
in particular a second 429 (resp. ≥500) response surfaces the same
error class to the caller. -/
theorem fetchUsage_transient_status_retries (k o : String) (now : Nat)
    (oracle : Nat → Attempt) (cache : ClientCache) (s0 : Nat) (b0 : Body)
    (hk : k ≠ "") (ho : o ≠ "") (hatt : oracle 0 = .response s0 b0)
    (hs : s0 = 429 ∨ 500 ≤ s0) :
    (fetchUsageOnce k o now (oracle 0) cache).1 =
      .error (if s0 = 429 then ClientError.rateLimited
              else ClientError.apiUnavailable) ∧
    (FetchUsage k o now oracle cache).requests = 2 ∧
    (FetchUsage k o now oracle cache).sleepSecs = 2 ∧
    (FetchUsage k o now oracle cache).result =
      (fetchUsageOnce k o now (oracle 1) cache).1 ∧
    (∀ b1, oracle 1 = .response s0 b1 →
      (FetchUsage k o now oracle cache).result =
        .error (if s0 = 429 then ClientError.rateLimited
                else ClientError.apiUnavailable)) := by
  have h0 : (fetchUsageOnce k o now (oracle 0) cache).1 =
      .error (if s0 = 429 then ClientError.rateLimited
              else ClientError.apiUnavailable) := by
    rw [hatt, fetchUsageOnce_transient_status k o now s0 b0 cache hs]
  have hne : ¬((if s0 = 429 then ClientError.rateLimited
      else ClientError.apiUnavailable) = ClientError.unauthorized ∨
      (if s0 = 429 then ClientError.rateLimited
      else ClientError.apiUnavailable) = ClientError.sessionExpired) := by
    split_ifs <;> simp
  have hshape := fetchUsage_retry_shape k o now oracle cache _ hk ho h0 hne
  refine ⟨h0, ?_, ?_, ?_, ?_⟩
  · rw [hshape]
  · rw [hshape]
  · rw [hshape]
  · intro b1 h1
    rw [hshape]
    show (fetchUsageOnce k o now (oracle 1) cache).1 = _
    rw [h1, fetchUsageOnce_transient_status k o now s0 b1 cache hs]

/-- C1 witness: the amended behaviour evaluated with both attempts
answering HTTP 503. -/
theorem fetchUsage_transient_status_retries_witness :
    (FetchUsage "k" "o" 0 (fun _ => .response 503 ⟨none, none, none⟩)
        ⟨none, none⟩).requests = 2 ∧
    (FetchUsage "k" "o" 0 (fun _ => .response 503 ⟨none, none, none⟩)
        ⟨none, none⟩).sleepSecs = 2 :=
  ⟨(fetchUsage_transient_status_retries "k" "o" 0
      (fun _ => .response 503 ⟨none, none, none⟩) ⟨none, none⟩ 503
      ⟨none, none, none⟩ (by decide) (by decide) rfl
      (Or.inr (by norm_num))).2.1,
   (fetchUsage_transient_status_retries "k" "o" 0
      (fun _ => .response 503 ⟨none, none, none⟩) ⟨none, none⟩ 503
      ⟨none, none, none⟩ (by decide) (by decide) rfl
      (Or.inr (by norm_num))).2.2.1⟩

/-! ### C5: one-retry-with-2s-delay policy -/

/-- C5: for both `FetchOrganizations` and `FetchUsage` with credentials
present, a first attempt failing with `Unauthorized` or `SessionExpired`
is returned immediately after exactly one request and no sleep, while
any other failing first attempt is followed by exactly one further
attempt after a 2-second delay, whose outcome (value or error) is
returned. -/
theorem retry_once_policy (k ku ou : String) (now : Nat)
    (orc urc : Nat → Attempt) (cache : ClientCache) (e0 f0 : ClientError)
    (hk : k ≠ "") (hku : ku ≠ "") (hou : ou ≠ "")
    (h0 : fetchOrganizationsOnce k (orc 0) = .error e0)
    (hu0 : (fetchUsageOnce ku ou now (urc 0) cache).1 = .error f0) :
    ((e0 = ClientError.unauthorized ∨ e0 = ClientError.sessionExpired) →
        FetchOrganizations k orc = ⟨.error e0, 1, 0⟩) ∧
    (¬(e0 = ClientError.unauthorized ∨ e0 = ClientError.sessionExpired) →
        FetchOrganizations k orc = ⟨fetchOrganizationsOnce k (orc 1), 2, 2⟩) ∧
    ((f0 = ClientError.unauthorized ∨ f0 = ClientError.sessionExpired) →
        FetchUsage ku ou now urc cache = ⟨.error f0, 1, 0, cache⟩) ∧
    (¬(f0 = ClientError.unauthorized ∨ f0 = ClientError.sessionExpired) →
        (FetchUsage ku ou now urc cache).result =
          (fetchUsageOnce ku ou now (urc 1) cache).1 ∧
        (FetchUsage ku ou now urc cache).requests = 2 ∧
        (FetchUsage ku ou now urc cache).sleepSecs = 2) := by
  refine ⟨?_, ?_, ?_, ?_⟩
  · exact fun he => fetchOrganizations_auth_shape k orc e0 hk h0 he
  · exact fun hne => fetchOrganizations_retry_shape k orc e0 hk h0 hne
  · exact fun he => fetchUsage_auth_shape ku ou now urc cache f0 hku hou hu0 he
  · intro hne
    rw [fetchUsage_retry_shape ku ou now urc cache f0 hku hou hu0 hne]
    exact ⟨rfl, rfl, rfl⟩

/-- C5 witness: a transient transport failure on `FetchOrganizations`
triggers exactly one retry, and a 401 on `FetchUsage` triggers none. -/
theorem retry_once_policy_witness :
    FetchOrganizations "sess" (fun _ => .transportError "timeout") =
      ⟨fetchOrganizationsOnce "sess" (.transportError "timeout"), 2, 2⟩ ∧
    FetchUsage "sess" "org" 0 (fun _ => .response 401 ⟨none, none, none⟩)
        ⟨none, none⟩ = ⟨.error .unauthorized, 1, 0, ⟨none, none⟩⟩ :=
  ⟨(retry_once_policy "sess" "sess" "org" 0
      (fun _ => .transportError "timeout")
      (fun _ => .response 401 ⟨none, none, none⟩) ⟨none, none⟩
      (.networkError "timeout") .unauthorized
      (by decide) (by decide) (by decide) rfl rfl).2.1 (by decide),
   (retry_once_policy "sess" "sess" "org" 0
      (fun _ => .transportError "timeout")
      (fun _ => .response 401 ⟨none, none, none⟩) ⟨none, none⟩
      (.networkError "timeout") .unauthorized
      (by decide) (by decide) (by decide) rfl rfl).2.2.1 (Or.inl rfl)⟩

/-! ### C10: cache frame condition -/

/-- C10: a `FetchUsage` call that returns an error leaves the client's
cached last-usage snapshot and last-fetch time exactly as they were;
the cache is written only on the successful return path, where it holds
the new snapshot and fetch time. -/
theorem fetchUsage_cache_frame (k o : String) (now : Nat)
    (oracle : Nat → Attempt) (cache : ClientCache) :
    (∀ e, (FetchUsage k o now oracle cache).result = .error e →
        (FetchUsage k o now oracle cache).cache = cache) ∧
    (∀ u, (FetchUsage k o now oracle cache).result = .ok u →
        (FetchUsage k o now oracle cache).cache = ⟨some u, some now⟩) := by
  by_cases hk : k = ""
  · have hg : FetchUsage k o now oracle cache =
        ⟨.error .noSessionKey, 0, 0, cache⟩ := by
      unfold FetchUsage
      rw [if_pos hk]
    rw [hg]
    exact ⟨fun e _ => rfl, fun u h => Except.noConfusion h⟩
  by_cases ho : o = ""
  · have hg : FetchUsage k o now oracle cache =
        ⟨.error .noOrgID, 0, 0, cache⟩ := by
      unfold FetchUsage
      rw [if_neg hk, if_pos ho]
    rw [hg]
    exact ⟨fun e _ => rfl, fun u h => Except.noConfusion h⟩
  cases h0 : (fetchUsageOnce k o now (oracle 0) cache).1 with
  | ok u0 =>
    have hg := fetchUsage_ok_shape k o now oracle cache u0 hk ho h0
    have hc := fetchUsageOnce_ok_cache k o now (oracle 0) cache u0 h0
    rw [hg, hc]
    refine ⟨fun e h => Except.noConfusion h, fun u h => ?_⟩
    have hu : u0 = u := by injection h
    rw [hu]
  | error e0 =>
    by_cases hauth : e0 = ClientError.unauthorized ∨ e0 = ClientError.sessionExpired
    · have hg := fetchUsage_auth_shape k o now oracle cache e0 hk ho h0 hauth
      rw [hg]
      exact ⟨fun e _ => rfl, fun u h => Except.noConfusion h⟩
    · have hg := fetchUsage_retry_shape k o now oracle cache e0 hk ho h0 hauth
      rw [hg]
      dsimp only
      cases h1 : (fetchUsageOnce k o now (oracle 1) cache).1 with
      | ok u1 =>
        have hc := fetchUsageOnce_ok_cache k o now (oracle 1) cache u1 h1
        rw [hc]
        refine ⟨fun e h => Except.noConfusion h, fun u h => ?_⟩
        have hu : u1 = u := by injection h
        rw [hu]
      | error e1 =>
        have hc := fetchUsageOnce_error_cache k o now (oracle 1) cache e1 h1
        rw [hc]
        exact ⟨fun e _ => rfl, fun u h => Except.noConfusion h⟩

/-- C10 witness: a rate-limited fetch leaves an empty cache empty. -/
theorem fetchUsage_cache_frame_witness :
    (FetchUsage "k" "o" 7 (fun _ => .response 429 ⟨none, none, none⟩)
        ⟨none, none⟩).cache = ⟨none, none⟩ :=
  (fetchUsage_cache_frame "k" "o" 7
      (fun _ => .response 429 ⟨none, none, none⟩) ⟨none, none⟩).1
    .rateLimited rfl

/-! ### Polling-loop helper lemmas -/

theorem fetchUsageOnError_count (st : PollState) (e : ClientError) :
    (fetchUsageOnError st e).consecutiveErrors = st.consecutiveErrors + 1 := by
  unfold fetchUsageOnError
  dsimp only
  split_ifs <;> rfl

theorem fetchUsageOnError_rl_backoff (st : PollState) :
    (fetchUsageOnError st .rateLimited).rateLimitBackoff =
      30 * (1 <<< min st.consecutiveErrors 3) := rfl

theorem rlTicks_count (st : PollState) :
    ∀ n, (rlTicks n st).consecutiveErrors = st.consecutiveErrors + n := by
  intro n
  induction n with
  | zero => rfl
  | succ m ih =>
    show (fetchUsageOnError (rlTicks m st) .rateLimited).consecutiveErrors = _
    rw [fetchUsageOnError_count, ih]
    omega

/-! ### C2: rate-limit backoff formula -/

/-- C2: a tick failing with `RateLimited` stores a backoff of
`30 * 2 ^ min (consecutiveErrors - 1) 3` seconds, `consecutiveErrors`
being the counter value after this failure; starting from a zeroed
counter, `n ≥ 1` consecutive rate-limited ticks leave a stored backoff
of `30 * 2 ^ min (n-1) 3` seconds (30/60/120/240), equal to 240 for the
4th and every later consecutive rate-limited tick. -/
theorem rateLimited_backoff_formula (st st0 : PollState)
    (h0 : st0.consecutiveErrors = 0) (n : Nat) (hn : 1 ≤ n) :
    (fetchUsageOnError st .rateLimited).rateLimitBackoff =
      30 * 2 ^ min ((fetchUsageOnError st .rateLimited).consecutiveErrors - 1) 3 ∧
    (rlTicks n st0).rateLimitBackoff = 30 * 2 ^ min (n - 1) 3 ∧
    (4 ≤ n → (rlTicks n st0).rateLimitBackoff = 240) := by
  have hpow : ∀ m : Nat, (1 <<< m) = 2 ^ m := by
    intro m
    rw [Nat.shiftLeft_eq, one_mul]
  have hone : ∀ s : PollState, (fetchUsageOnError s .rateLimited).rateLimitBackoff
      = 30 * 2 ^ min s.consecutiveErrors 3 := by
    intro s
    rw [fetchUsageOnError_rl_backoff, hpow]
  have hseq : (rlTicks n st0).rateLimitBackoff = 30 * 2 ^ min (n - 1) 3 := by
    obtain ⟨m, rfl⟩ : ∃ m, n = m + 1 := ⟨n - 1, by omega⟩
    show (fetchUsageOnError (rlTicks m st0) .rateLimited).rateLimitBackoff = _
    rw [hone, rlTicks_count, h0]
    simp
  refine ⟨?_, hseq, ?_⟩
  · rw [hone, fetchUsageOnError_count, Nat.add_sub_cancel]
  · intro h4
    rw [hseq, Nat.min_eq_right (by omega : 3 ≤ n - 1)]
    norm_num

/-- C2 witness: the formula at a counter of 5, and the capped sequence
value after 4 consecutive rate-limited ticks from a fresh state. -/
theorem rateLimited_backoff_formula_witness :
    (fetchUsageOnError ⟨5, 0, 0, 0⟩ .rateLimited).rateLimitBackoff =
      30 * 2 ^ min ((fetchUsageOnError ⟨5, 0, 0, 0⟩ .rateLimited).consecutiveErrors - 1) 3 ∧
    (rlTicks 4 ⟨0, 0, 0, 0⟩).rateLimitBackoff = 30 * 2 ^ min (4 - 1) 3 ∧
    (4 ≤ 4 → (rlTicks 4 ⟨0, 0, 0, 0⟩).rateLimitBackoff = 240) :=
  rateLimited_backoff_formula ⟨5, 0, 0, 0⟩ ⟨0, 0, 0, 0⟩ rfl 4 (by norm_num)

/-! ### C3: notification threshold crossing -/

/-- C3: with notifications enabled and a non-empty threshold list, a
tick's notification per metric fires iff the highest crossed threshold
strictly exceeds the recorded last-crossed value, in which case the
record is raised to it; when strictly below, the record is lowered to it
without firing; when equal, nothing fires and the record is unchanged.
(The weekly record is judged against the same tick's starting state, so
the two metrics are independent.) -/
theorem checkAndNotify_threshold_crossing (cfg : NotifyConfig) (st : PollState)
    (u5 u7 : Rat) (hen : cfg.notificationsEnabled = true)
    (hts : cfg.alertThresholds ≠ []) :
    ((checkAndNotify cfg st u5 u7).sessionFired = true ↔
      highestCrossedThreshold u5 cfg.alertThresholds > st.lastSessionThreshold) ∧
    (highestCrossedThreshold u5 cfg.alertThresholds > st.lastSessionThreshold →
      (checkAndNotify cfg st u5 u7).st.lastSessionThreshold =
        highestCrossedThreshold u5 cfg.alertThresholds) ∧
    (highestCrossedThreshold u5 cfg.alertThresholds < st.lastSessionThreshold →
      (checkAndNotify cfg st u5 u7).st.lastSessionThreshold =
        highestCrossedThreshold u5 cfg.alertThresholds ∧
      (checkAndNotify cfg st u5 u7).sessionFired = false) ∧
    (highestCrossedThreshold u5 cfg.alertThresholds = st.lastSessionThreshold →
      (checkAndNotify cfg st u5 u7).st.lastSessionThreshold =
        st.lastSessionThreshold ∧
      (checkAndNotify cfg st u5 u7).sessionFired = false) ∧
    ((checkAndNotify cfg st u5 u7).weeklyFired = true ↔
      highestCrossedThreshold u7 cfg.alertThresholds > st.lastWeeklyThreshold) ∧
    (highestCrossedThreshold u7 cfg.alertThresholds > st.lastWeeklyThreshold →
      (checkAndNotify cfg st u5 u7).st.lastWeeklyThreshold =
        highestCrossedThreshold u7 cfg.alertThresholds) ∧
    (highestCrossedThreshold u7 cfg.alertThresholds < st.lastWeeklyThreshold →
      (checkAndNotify cfg st u5 u7).st.lastWeeklyThreshold =
        highestCrossedThreshold u7 cfg.alertThresholds ∧
      (checkAndNotify cfg st u5 u7).weeklyFired = false) ∧
    (highestCrossedThreshold u7 cfg.alertThresholds = st.lastWeeklyThreshold →
      (checkAndNotify cfg st u5 u7).st.lastWeeklyThreshold =
        st.lastWeeklyThreshold ∧
      (checkAndNotify cfg st u5 u7).weeklyFired = false) := by
  have hgate : ¬(cfg.notificationsEnabled = false ∨ cfg.alertThresholds = []) := by
    rw [hen]
    simp [hts]
  unfold checkAndNotify
  rw [if_neg hgate]
  dsimp only
  split_ifs with h1 h2 h3 h4 h5 h6 h7 h8 <;>
    refine ⟨?_, ?_, ?_, ?_, ?_, ?_, ?_, ?_⟩ <;>
    simp_all <;>
    linarith

/-- C3 witness: thresholds 50/75/90, utilization 80 over a fresh record
fires the session notification and records 75; weekly utilization 10
with record 75 lowers the record to 0 silently. -/
theorem checkAndNotify_threshold_crossing_witness :
    ((checkAndNotify ⟨true, [50, 75, 90]⟩ ⟨0, 0, 0, 75⟩ 80 10).sessionFired = true ↔
      highestCrossedThreshold 80 [50, 75, 90] > (0 : Rat)) ∧
    (highestCrossedThreshold 80 [50, 75, 90] > (0 : Rat) →
      (checkAndNotify ⟨true, [50, 75, 90]⟩ ⟨0, 0, 0, 75⟩ 80 10).st.lastSessionThreshold =
        highestCrossedThreshold 80 [50, 75, 90]) ∧
    (highestCrossedThreshold 10 [50, 75, 90] < (75 : Rat) →
      (checkAndNotify ⟨true, [50, 75, 90]⟩ ⟨0, 0, 0, 75⟩ 80 10).st.lastWeeklyThreshold =
        highestCrossedThreshold 10 [50, 75, 90] ∧
      (checkAndNotify ⟨true, [50, 75, 90]⟩ ⟨0, 0, 0, 75⟩ 80 10).weeklyFired = false) := by
  have h := checkAndNotify_threshold_crossing ⟨true, [50, 75, 90]⟩
    ⟨0, 0, 0, 75⟩ 80 10 rfl (by decide)
  exact ⟨h.1, h.2.1, h.2.2.2.2.2.2.1⟩

/-! ### C8: SetManualSessionKey rollback and persistence -/

theorem verifyAndFetchOrg_sessionKey (st : AMState) (oracle : Nat → Attempt) :
    (verifyAndFetchOrg st oracle).2.client.sessionKey = st.client.sessionKey := by
  unfold verifyAndFetchOrg
  cases h : (FetchOrganizations st.client.sessionKey oracle).result with
  | error e => rfl
  | ok orgs =>
    cases orgs with
    | nil => rfl
    | cons o rest => rfl

/-- C8: `SetManualSessionKey key` installs `key` and runs
verify-and-fetch-organization with it; if verification fails, the
client's session key is rolled back to the empty string and the error
is returned; if it succeeds, the key stays installed and is persisted
to the Credential Store. -/
theorem setManualSessionKey_rollback_persist (key : String) (st : AMState)
    (oracle : Nat → Attempt) :
    (∀ e, (verifyAndFetchOrg
        { st with client := { st.client with sessionKey := key } } oracle).1 =
          .error e →
      (SetManualSessionKey key st oracle).1 = .error e ∧
      (SetManualSessionKey key st oracle).2.client.sessionKey = "") ∧
    ((verifyAndFetchOrg
        { st with client := { st.client with sessionKey := key } } oracle).1 =
          .ok () →
      (SetManualSessionKey key st oracle).1 = .ok () ∧
      (SetManualSessionKey key st oracle).2.client.sessionKey = key ∧
      (SetManualSessionKey key st oracle).2.config.sessionKey = key) := by
  have hkey := verifyAndFetchOrg_sessionKey
    { st with client := { st.client with sessionKey := key } } oracle
  unfold SetManualSessionKey
  rcases hv : verifyAndFetchOrg
      { st with client := { st.client with sessionKey := key } } oracle with ⟨res, st2⟩
  rw [hv] at hkey
  cases res with
  | error e0 =>
    dsimp only
    exact ⟨fun e he => ⟨he, rfl⟩, fun hok => Except.noConfusion hok⟩
  | ok u =>
    dsimp only
    dsimp only at hkey
    exact ⟨fun e he => Except.noConfusion he, fun _ => ⟨rfl, hkey, rfl⟩⟩

/-- C8 witness: a manual key verified against an organization list of
one entry stays installed and is persisted. -/
theorem setManualSessionKey_rollback_persist_witness :
    (SetManualSessionKey "newKey" ⟨⟨"oldKey", "oldOrg"⟩, ⟨"cfgKey", "cfgOrg"⟩⟩
        (fun _ => .response 200 ⟨none, none, some [⟨"org-1", "Acme"⟩]⟩)).1 =
      .ok () ∧
    (SetManualSessionKey "newKey" ⟨⟨"oldKey", "oldOrg"⟩, ⟨"cfgKey", "cfgOrg"⟩⟩
        (fun _ => .response 200 ⟨none, none, some [⟨"org-1", "Acme"⟩]⟩)).2.client.sessionKey =
      "newKey" ∧
    (SetManualSessionKey "newKey" ⟨⟨"oldKey", "oldOrg"⟩, ⟨"cfgKey", "cfgOrg"⟩⟩
        (fun _ => .response 200 ⟨none, none, some [⟨"org-1", "Acme"⟩]⟩)).2.config.sessionKey =
      "newKey" :=
  (setManualSessionKey_rollback_persist "newKey"
      ⟨⟨"oldKey", "oldOrg"⟩, ⟨"cfgKey", "cfgOrg"⟩⟩
      (fun _ => .response 200 ⟨none, none, some [⟨"org-1", "Acme"⟩]⟩)).2 rfl

/-! ### C9: ToUsageData round trip -/

theorem toUsageData_fiveHour (r : UsageAPIResponse) (now : Nat) :
    (r.ToUsageData now).fiveHour =
      match r.fiveHour with
      | none => zeroUsageStat
      | some m => ⟨m.utilization, parseTime m.resetsAt, "5-Hour"⟩ := by
  obtain ⟨f1, f2, f3, f4⟩ := r
  cases f1 <;> cases f2 <;> cases f3 <;> cases f4 <;> rfl

theorem toUsageData_sevenDay (r : UsageAPIResponse) (now : Nat) :
    (r.ToUsageData now).sevenDay =
      match r.sevenDay with
      | none => zeroUsageStat
      | some m => ⟨m.utilization, parseTime m.resetsAt, "Weekly"⟩ := by
  obtain ⟨f1, f2, f3, f4⟩ := r
  cases f1 <;> cases f2 <;> cases f3 <;> cases f4 <;> rfl

theorem toUsageData_sevenDayOpus (r : UsageAPIResponse) (now : Nat) :
    (r.ToUsageData now).sevenDayOpus =
      match r.sevenDayOpus with
      | none => zeroUsageStat
      | some m => ⟨m.utilization, parseTime m.resetsAt, "Opus"⟩ := by
  obtain ⟨f1, f2, f3, f4⟩ := r
  cases f1 <;> cases f2 <;> cases f3 <;> cases f4 <;> rfl

theorem toUsageData_sevenDaySonnet (r : UsageAPIResponse) (now : Nat) :
    (r.ToUsageData now).sevenDaySonnet =
      match r.sevenDaySonnet with
      | none => zeroUsageStat
      | some m => ⟨m.utilization, parseTime m.resetsAt, "Sonnet"⟩ := by
  obtain ⟨f1, f2, f3, f4⟩ := r
  cases f1 <;> cases f2 <;> cases f3 <;> cases f4 <;> rfl

/-- C9: when all four metrics are present and their `resets_at` strings
parse, `ToUsageData` yields stats carrying the parsed timestamps and the
fixed labels `"5-Hour"`, `"Weekly"`, `"Opus"`, `"Sonnet"`; an absent
metric leaves the corresponding stat zero-valued; an empty `resets_at`
normalizes to the zero time value, as does any unparseable one (shown
for a present metric), and conversion itself never errors (it is a total
function). -/
theorem toUsageData_roundtrip (r r2 r3 : UsageAPIResponse) (now n2 n3 : Nat)
    (m1 m2 m3 m4 m5 : UsageMetric) (t1 t2 t3 t4 : DateTime)
    (h1 : r.fiveHour = some m1) (h2 : r.sevenDay = some m2)
    (h3 : r.sevenDayOpus = some m3) (h4 : r.sevenDaySonnet = some m4)
    (hp1 : parseTime m1.resetsAt = some t1)
    (hp2 : parseTime m2.resetsAt = some t2)
    (hp3 : parseTime m3.resetsAt = some t3)
    (hp4 : parseTime m4.resetsAt = some t4) :
    (r.ToUsageData now).fiveHour = ⟨m1.utilization, some t1, "5-Hour"⟩ ∧
    (r.ToUsageData now).sevenDay = ⟨m2.utilization, some t2, "Weekly"⟩ ∧
    (r.ToUsageData now).sevenDayOpus = ⟨m3.utilization, some t3, "Opus"⟩ ∧
    (r.ToUsageData now).sevenDaySonnet = ⟨m4.utilization, some t4, "Sonnet"⟩ ∧
    (r2.fiveHour = none → (r2.ToUsageData n2).fiveHour = zeroUsageStat) ∧
    (r2.sevenDay = none → (r2.ToUsageData n2).sevenDay = zeroUsageStat) ∧
    (r2.sevenDayOpus = none → (r2.ToUsageData n2).sevenDayOpus = zeroUsageStat) ∧
    (r2.sevenDaySonnet = none → (r2.ToUsageData n2).sevenDaySonnet = zeroUsageStat) ∧
    parseTime "" = none ∧
    (r3.fiveHour = some m5 → parseTime m5.resetsAt = none →
      (r3.ToUsageData n3).fiveHour = ⟨m5.utilization, none, "5-Hour"⟩) := by
  refine ⟨?_, ?_, ?_, ?_, ?_, ?_, ?_, ?_, rfl, ?_⟩
  · rw [toUsageData_fiveHour, h1]
    dsimp only
    rw [hp1]
  · rw [toUsageData_sevenDay, h2]
    dsimp only
    rw [hp2]
  · rw [toUsageData_sevenDayOpus, h3]
    dsimp only
    rw [hp3]
  · rw [toUsageData_sevenDaySonnet, h4]
    dsimp only
    rw [hp4]
  · intro hn
    rw [toUsageData_fiveHour, hn]
  · intro hn
    rw [toUsageData_sevenDay, hn]
  · intro hn
    rw [toUsageData_sevenDayOpus, hn]
  · intro hn
    rw [toUsageData_sevenDaySonnet, hn]
  · intro hm hp
    rw [toUsageData_fiveHour, hm]
    dsimp only
    rw [hp]

/-- C9 witness: a fully-populated response with four distinct valid
ISO-8601 timestamps (plain, fractional, positive and negative offsets),
an empty response, and a present metric with an unparseable timestamp. -/
theorem toUsageData_roundtrip_witness :
    ((UsageAPIResponse.mk
        (some ⟨50, "2025-01-02T03:04:05Z"⟩)
        (some ⟨60, "2025-03-04T05:06:07.25Z"⟩)
        (some ⟨70, "2025-05-06T07:08:09+01:00"⟩)
        (some ⟨80, "2025-07-08T09:10:11-04:30"⟩)).ToUsageData 9).fiveHour =
      ⟨50, some ⟨2025, 1, 2, 3, 4, 5, 0, 0⟩, "5-Hour"⟩ ∧
    ((UsageAPIResponse.mk
        (some ⟨50, "2025-01-02T03:04:05Z"⟩)
        (some ⟨60, "2025-03-04T05:06:07.25Z"⟩)
        (some ⟨70, "2025-05-06T07:08:09+01:00"⟩)
        (some ⟨80, "2025-07-08T09:10:11-04:30"⟩)).ToUsageData 9).sevenDay =
      ⟨60, some ⟨2025, 3, 4, 5, 6, 7, 250000000, 0⟩, "Weekly"⟩ ∧
    ((UsageAPIResponse.mk
        (some ⟨50, "2025-01-02T03:04:05Z"⟩)
        (some ⟨60, "2025-03-04T05:06:07.25Z"⟩)
        (some ⟨70, "2025-05-06T07:08:09+01:00"⟩)
        (some ⟨80, "2025-07-08T09:10:11-04:30"⟩)).ToUsageData 9).sevenDayOpus =
      ⟨70, some ⟨2025, 5, 6, 7, 8, 9, 0, 60⟩, "Opus"⟩ ∧
    ((UsageAPIResponse.mk
        (some ⟨50, "2025-01-02T03:04:05Z"⟩)
        (some ⟨60, "2025-03-04T05:06:07.25Z"⟩)
        (some ⟨70, "2025-05-06T07:08:09+01:00"⟩)
        (some ⟨80, "2025-07-08T09:10:11-04:30"⟩)).ToUsageData 9).sevenDaySonnet =
      ⟨80, some ⟨2025, 7, 8, 9, 10, 11, 0, -270⟩, "Sonnet"⟩ ∧
    ((UsageAPIResponse.mk none none none none).ToUsageData 0).fiveHour =
      zeroUsageStat ∧
    ((UsageAPIResponse.mk none none none none).ToUsageData 0).sevenDay =
      zeroUsageStat ∧
    ((UsageAPIResponse.mk none none none none).ToUsageData 0).sevenDayOpus =
      zeroUsageStat ∧
    ((UsageAPIResponse.mk none none none none).ToUsageData 0).sevenDaySonnet =
      zeroUsageStat ∧
    parseTime "" = none ∧
    ((UsageAPIResponse.mk (some ⟨10, "not-a-time"⟩) none none none).ToUsageData
        3).fiveHour = ⟨10, none, "5-Hour"⟩ := by
  have h := toUsageData_roundtrip
    (UsageAPIResponse.mk
      (some ⟨50, "2025-01-02T03:04:05Z"⟩)
      (some ⟨60, "2025-03-04T05:06:07.25Z"⟩)
      (some ⟨70, "2025-05-06T07:08:09+01:00"⟩)
      (some ⟨80, "2025-07-08T09:10:11-04:30"⟩))
    (UsageAPIResponse.mk none none none none)
    (UsageAPIResponse.mk (some ⟨10, "not-a-time"⟩) none none none)
    9 0 3
    ⟨50, "2025-01-02T03:04:05Z"⟩ ⟨60, "2025-03-04T05:06:07.25Z"⟩
    ⟨70, "2025-05-06T07:08:09+01:00"⟩ ⟨80, "2025-07-08T09:10:11-04:30"⟩
    ⟨10, "not-a-time"⟩
    ⟨2025, 1, 2, 3, 4, 5, 0, 0⟩ ⟨2025, 3, 4, 5, 6, 7, 250000000, 0⟩
    ⟨2025, 5, 6, 7, 8, 9, 0, 60⟩ ⟨2025, 7, 8, 9, 10, 11, 0, -270⟩
    rfl rfl rfl rfl (by decide) (by decide) (by decide) (by decide)
  exact ⟨h.1, h.2.1, h.2.2.1, h.2.2.2.1, h.2.2.2.2.1 rfl, h.2.2.2.2.2.1 rfl,
    h.2.2.2.2.2.2.1 rfl, h.2.2.2.2.2.2.2.1 rfl, h.2.2.2.2.2.2.2.2.1,
    h.2.2.2.2.2.2.2.2.2 rfl (by decide)⟩

end ClaudeBar
